import Mathlib

/-!
Shallow embedding of the supabase-logger client (src/supabase_client.py and
src/supabase_logger.py).

The Python code is stateful and performs HTTP calls.  We model it with
explicit state passing:

* `SupabaseClient` is the mutable instance state (cached credentials plus
  configuration), `SupabaseLogger` extends it with the logger-specific
  fields (`enabled`, the singleton `_initialized` flag, context ids).
* The network is an oracle `Net`: a function from the index of the network
  call (0-based, counted from the start of the modelled operation) to the
  response the backend gives to that call.  Each operation returns, besides
  its result and the updated state, the list of requests it issued
  (`List NetReq`), so that "exactly one authentication call" becomes a
  statement about that trace.
* Python exceptions are modelled with `Except String`; the `String` carries
  the diagnostic (HTTP response body, or the missing JSON key).
* Python truthiness matters in the source (`if not self.access_token`,
  `if self.expires_at and ...`, `x or y`); it is modelled exactly by
  `truthyS` / `truthyI` / `pyOrStr`: `None` and the empty string are falsy,
  `None` and `0` are falsy for the integer `expires_at`.
* Wall-clock readings (`datetime.now(timezone.utc).timestamp()`) are passed
  in as an explicit `now : Int` parameter (seconds since the epoch, as the
  source truncates with `int(...)`); the `datetime` values of the log
  record are modelled as rationals (seconds), since `total_seconds()`
  returns fractional seconds.
-/

/-- Python truthiness of an optional string: `None` and `""` are falsy. -/
def truthyS : Option String → Bool
  | none => false
  | some s => !(s == "")

/-- Python truthiness of an optional integer: `None` and `0` are falsy. -/
def truthyI : Option Int → Bool
  | none => false
  | some n => !(n == 0)

/-- Python `a or b` on optional strings, as used for the
environment-variable fallback `url or os.environ.get(SUPABASE_URL)`. -/
def pyOrStr (a b : Option String) : Option String :=
  if truthyS a then a else b

/-- The kind of HTTP POST request issued by the client, by endpoint:
password-grant authentication, refresh-token-grant, or the log-record
insert. -/
inductive NetReq where
  | password
  | refreshGrant
  | insert
deriving DecidableEq, Repr

/-- The JSON body of a token-endpoint response, as the Python code reads
it: `data["access_token"]`, `data["refresh_token"]` (KeyError when
absent), and `data.get("expires_in", 3600)`. -/
structure AuthBody where
  access_token : Option String
  refresh_token : Option String
  expires_in : Option Int
deriving DecidableEq, Repr

/-- Outcome of one network call.  `ok body` is an HTTP-success response
(`raise_for_status` does not raise) with the given parsed JSON body (the
body is ignored for insert requests); `fail body` is a non-success status
or transport error, carrying the response body / diagnostic text. -/
inductive NetResp where
  | ok (body : AuthBody)
  | fail (body : String)
deriving DecidableEq, Repr

/-- The network oracle: the response the backend gives to the n-th network
call issued (counted from the start of the modelled operation). -/
structure Net where
  resp : Nat → NetResp

/-- The instance state of `SupabaseClient`: the cached credential triple
set in `__init__` to `None` and the configuration resolved there. -/
structure SupabaseClient where
  access_token : Option String
  refresh_token : Option String
  expires_at : Option Int
  url : Option String
  api_key : Option String
  auth_email : Option String
  auth_password : Option String
  environment : Option String
deriving DecidableEq, Repr

/-- The process environment variables read by the constructors. -/
structure OSEnv where
  SUPABASE_URL : Option String
  SUPABASE_API_KEY : Option String
  SUPABASE_AUTH_EMAIL : Option String
  SUPABASE_AUTH_PASSWORD : Option String
  ENVIRONMENT : Option String
deriving DecidableEq, Repr

/-- `SupabaseClient.__init__`: the credential triple starts out `None`;
each configuration field is the parameter, falling back to the
corresponding environment variable (Python `or`). -/
def clientInit (url api_key auth_email auth_password environment : Option String)
    (env : OSEnv) : SupabaseClient :=
  { access_token := none
    refresh_token := none
    expires_at := none
    url := pyOrStr url env.SUPABASE_URL
    api_key := pyOrStr api_key env.SUPABASE_API_KEY
    auth_email := pyOrStr auth_email env.SUPABASE_AUTH_EMAIL
    auth_password := pyOrStr auth_password env.SUPABASE_AUTH_PASSWORD
    environment := pyOrStr environment env.ENVIRONMENT }

/-- `SupabaseClient._authenticate` (src/supabase_client.py lines 116-144).
Issues one password-grant request.  On HTTP failure the exception is
re-raised and no field is assigned.  On HTTP success the fields are
assigned in source order: `access_token` first (KeyError if the key is
absent — before any assignment), then `refresh_token` (KeyError if absent
— after `access_token` was already assigned), then
`expires_at := now + data.get("expires_in", 3600)`. -/
def _authenticate (st : SupabaseClient) (net : Net) (k : Nat) (now : Int) :
    Except String Unit × SupabaseClient × List NetReq :=
  match net.resp k with
  | .fail body => (.error body, st, [.password])
  | .ok data =>
    match data.access_token with
    | none => (.error "KeyError: access_token", st, [.password])
    | some tok =>
      let st1 := { st with access_token := some tok }
      match data.refresh_token with
      | none => (.error "KeyError: refresh_token", st1, [.password])
      | some rtok =>
        (.ok (), { st1 with refresh_token := some rtok,
                            expires_at := some (now + data.expires_in.getD 3600) },
         [.password])

/-- `SupabaseClient._refresh_token` (src/supabase_client.py lines 87-114):
same body-reading contract as `_authenticate`, but issued against the
refresh-token-grant endpoint. -/
def _refresh_token (st : SupabaseClient) (net : Net) (k : Nat) (now : Int) :
    Except String Unit × SupabaseClient × List NetReq :=
  match net.resp k with
  | .fail body => (.error body, st, [.refreshGrant])
  | .ok data =>
    match data.access_token with
    | none => (.error "KeyError: access_token", st, [.refreshGrant])
    | some tok =>
      let st1 := { st with access_token := some tok }
      match data.refresh_token with
      | none => (.error "KeyError: refresh_token", st1, [.refreshGrant])
      | some rtok =>
        (.ok (), { st1 with refresh_token := some rtok,
                            expires_at := some (now + data.expires_in.getD 3600) },
         [.refreshGrant])

/-- `SupabaseClient._get_valid_token` (src/supabase_client.py lines
58-85).  `now` is the `current_time` reading; the same reading is passed
down to `_authenticate` / `_refresh_token` for their `expires_at`
computation. -/
def _get_valid_token (st : SupabaseClient) (net : Net) (k : Nat) (now : Int) :
    Except String (Option String) × SupabaseClient × List NetReq :=
  if !(truthyS st.access_token) then
    match _authenticate st net k now with
    | (.ok _, st1, cs) => (.ok st1.access_token, st1, cs)
    | (.error e, st1, cs) => (.error e, st1, cs)
  else if truthyI st.expires_at && decide (st.expires_at.getD 0 ≤ now)
      && truthyS st.refresh_token then
    match _refresh_token st net k now with
    | (.ok _, st1, cs) => (.ok st1.access_token, st1, cs)
    | (.error _, st1, cs) =>
      match _authenticate st1 net (k + cs.length) now with
      | (.ok _, st2, cs2) => (.ok st2.access_token, st2, cs ++ cs2)
      | (.error e, st2, cs2) => (.error e, st2, cs ++ cs2)
  else if truthyI st.expires_at && decide (st.expires_at.getD 0 ≤ now) then
    match _authenticate st net k now with
    | (.ok _, st1, cs) => (.ok st1.access_token, st1, cs)
    | (.error e, st1, cs) => (.error e, st1, cs)
  else
    (.ok st.access_token, st, [])

/-- `SupabaseLogger._insert_log` (src/supabase_logger.py lines 183-211):
obtain a valid token (errors propagate), then issue the insert POST;
`raise_for_status` turns a non-success status into an exception. -/
def _insert_log (st : SupabaseClient) (net : Net) (k : Nat) (now : Int) :
    Except String Unit × SupabaseClient × List NetReq :=
  match _get_valid_token st net k now with
  | (.error e, st1, cs) => (.error e, st1, cs)
  | (.ok _, st1, cs) =>
    match net.resp (k + cs.length) with
    | .ok _ => (.ok (), st1, cs ++ [.insert])
    | .fail body => (.error body, st1, cs ++ [.insert])

/-- The instance state of `SupabaseLogger` (src/supabase_logger.py): the
base-class state plus the context ids set in `__init__`, the `enabled`
flag, and the singleton `_initialized` flag set by `__new__` /
`__init__`. -/
structure SupabaseLogger extends SupabaseClient where
  user_id : Option String
  channel_id : Option String
  thread_id : Option String
  bot_id : Option String
  bot_name : Option String
  enabled : Bool
  _initialized : Bool
deriving DecidableEq, Repr

/-- The bare object produced by `object.__new__` before `__init__` runs:
`__new__` sets `_initialized = False` on it; every other field is
populated by `__init__` before it can be observed (placeholders here). -/
def blankLogger : SupabaseLogger :=
  { access_token := none
    refresh_token := none
    expires_at := none
    url := none
    api_key := none
    auth_email := none
    auth_password := none
    environment := none
    user_id := none
    channel_id := none
    thread_id := none
    bot_id := none
    bot_name := none
    enabled := false
    _initialized := false }

/-- `SupabaseLogger.__init__` (src/supabase_logger.py lines 38-101).  If
`_initialized` is already set the body does nothing.  Otherwise it
resolves each parameter against the environment (Python `or`), calls the
base `__init__` with the resolved values (which applies the same fallback
again, idempotently), sets the context ids to `None`, sets `enabled` true
iff none of url / api key / auth email / auth password is missing
(falsy), and marks the instance initialized. -/
def loggerInit (self : SupabaseLogger)
    (url api_key auth_email auth_password environment : Option String)
    (env : OSEnv) : SupabaseLogger :=
  if self._initialized then self
  else
    let url := pyOrStr url env.SUPABASE_URL
    let api_key := pyOrStr api_key env.SUPABASE_API_KEY
    let auth_email := pyOrStr auth_email env.SUPABASE_AUTH_EMAIL
    let auth_password := pyOrStr auth_password env.SUPABASE_AUTH_PASSWORD
    let environment := pyOrStr environment env.ENVIRONMENT
    { toSupabaseClient := clientInit url api_key auth_email auth_password environment env
      user_id := none
      channel_id := none
      thread_id := none
      bot_id := none
      bot_name := none
      enabled := truthyS url && truthyS api_key && truthyS auth_email
                   && truthyS auth_password
      _initialized := true }

/-- A full `SupabaseLogger(...)` constructor call: `__new__` returns the
class-level `_instance`, creating a blank one (with `_initialized =
False`) only when none exists, then `__init__` runs on it.  The pair is
(the object the call returns, the class-level `_instance` afterwards). -/
def constructLogger (inst : Option SupabaseLogger)
    (url api_key auth_email auth_password environment : Option String)
    (env : OSEnv) : SupabaseLogger × Option SupabaseLogger :=
  let self := match inst with
    | none => blankLogger
    | some l => l
  let self := loggerInit self url api_key auth_email auth_password environment env
  (self, some self)

/-- An attachments payload: an open key-value map of opaque values,
modelled as an association list.  A Python `{}` is the empty list. -/
abbrev Attachments := List (String × String)

/-- Python `d or {}` on an optional attachments dict: `None` and the
empty dict are falsy, so both give `{}`. -/
def pyOrDict : Option Attachments → Attachments
  | none => []
  | some d => if d.isEmpty then [] else d

/-- Python `n or 0` on the optional `chat_history_length`: `None` and `0`
are falsy, so both give `0`. -/
def pyOrInt : Option Int → Int
  | none => 0
  | some n => if n == 0 then 0 else n

/-- The log record `log_entry` assembled by `log_success`
(src/supabase_logger.py lines 134-151).  Timestamps are rationals
(seconds); `duration` is `(response_time - request_time).total_seconds()`
in fractional seconds. -/
structure LogEntry where
  created_at : ℚ
  request_timestamp : ℚ
  response_timestamp : ℚ
  ai_bot_id : String
  user_id : String
  channel_id : String
  thread_id : String
  user_message : String
  input_attachments : Attachments
  system_prompt : String
  chat_history_length : Int
  response_text : String
  duration : ℚ
  output_attachments : Attachments
  environment : Option String
deriving DecidableEq, Repr

/-- The arguments of `log_success` (src/supabase_logger.py lines
103-116). -/
structure LogInputs where
  user_id : String
  channel_id : String
  thread_id : String
  user_message : String
  response_text : String
  request_time : ℚ
  response_time : ℚ
  bot_id : String
  bot_name : String
  system_prompt : String
  input_attachments : Option Attachments
  chat_history_length : Option Int
  output_attachments : Option Attachments
deriving DecidableEq, Repr

/-- Assembly of the log record (src/supabase_logger.py lines 134-151).
`created_now` is the `datetime.now(timezone.utc)` reading; `environment`
is the configured environment label of the instance.  `bot_name` is accepted
by `log_success` but not written into the record by the source. -/
def mk_log_entry (environment : Option String) (created_now : ℚ)
    (args : LogInputs) : LogEntry :=
  { created_at := created_now
    request_timestamp := args.request_time
    response_timestamp := args.response_time
    ai_bot_id := args.bot_id
    user_id := args.user_id
    channel_id := args.channel_id
    thread_id := args.thread_id
    user_message := args.user_message
    input_attachments := pyOrDict args.input_attachments
    system_prompt := args.system_prompt
    chat_history_length := pyOrInt args.chat_history_length
    response_text := args.response_text
    duration := args.response_time - args.request_time
    output_attachments := pyOrDict args.output_attachments
    environment := environment }

/-- `SupabaseLogger.log_success` (src/supabase_logger.py lines 103-181).
Assembles the record, returns immediately (no network) when `url` is
falsy or `enabled` is false, otherwise tries `_insert_log` once; on any
exception it sets `access_token = None` and tries `_insert_log` exactly
once more, and an exception from that second attempt is only logged —
every path retuns `.ok ()`.  `now1` / `now2` are the wall-clock readings
during the first / second attempt; `created_now` is the creation-timestamp reading of the record. -/
def log_success (self : SupabaseLogger) (args : LogInputs) (created_now : ℚ)
    (net : Net) (k : Nat) (now1 now2 : Int) :
    Except String Unit × SupabaseLogger × List NetReq :=
  let _log_entry := mk_log_entry self.environment created_now args
  if !(truthyS self.url) then (.ok (), self, [])
  else if !self.enabled then (.ok (), self, [])
  else
    match _insert_log self.toSupabaseClient net k now1 with
    | (.ok _, st1, cs1) => (.ok (), { self with toSupabaseClient := st1 }, cs1)
    | (.error _, st1, cs1) =>
      match _insert_log { st1 with access_token := none } net (k + cs1.length) now2 with
      | (_, st3, cs2) => (.ok (), { self with toSupabaseClient := st3 }, cs1 ++ cs2)

/-! ### Helper lemmas -/

theorem authenticate_ok (st : SupabaseClient) (net : Net) (k : Nat) (now : Int)
    (b : AuthBody) (a r : String)
    (hresp : net.resp k = .ok b) (ha : b.access_token = some a)
    (hr : b.refresh_token = some r) :
    _authenticate st net k now =
      (.ok (), { st with access_token := some a, refresh_token := some r,
                         expires_at := some (now + b.expires_in.getD 3600) },
       [.password]) := by
  simp [_authenticate, hresp, ha, hr]

theorem authenticate_trace (st : SupabaseClient) (net : Net) (k : Nat) (now : Int) :
    (_authenticate st net k now).2.2 = [.password] := by
  unfold _authenticate
  rcases net.resp k with ⟨ba, br, be⟩ | body
  · rcases ba with _ | tok
    · rfl
    · rcases br with _ | rtok <;> rfl
  · rfl

theorem refresh_trace (st : SupabaseClient) (net : Net) (k : Nat) (now : Int) :
    (_refresh_token st net k now).2.2 = [.refreshGrant] := by
  unfold _refresh_token
  rcases net.resp k with ⟨ba, br, be⟩ | body
  · rcases ba with _ | tok
    · rfl
    · rcases br with _ | rtok <;> rfl
  · rfl

/-! ### Claims about `_get_valid_token` -/

/-- C2.  A client with no cached token, receiving one complete, valid
authentication response: the first `_get_valid_token` call issues exactly
one password-grant call and caches the three credential fields; a second
call at any time before `expires_at` (against any oracle) returns the
cached token unchanged, with no network call and no state change — one
authentication call in total. -/
theorem two_calls_single_auth
    (st : SupabaseClient) (net net2 : Net) (k k2 : Nat) (now now2 : Int)
    (a r : String) (b : AuthBody)
    (h0 : st.access_token = none)
    (hresp : net.resp k = .ok b)
    (ha : b.access_token = some a) (hne : a ≠ "")
    (hr : b.refresh_token = some r)
    (hlife : now2 < now + b.expires_in.getD 3600) :
    _get_valid_token st net k now =
      (.ok (some a),
       { st with access_token := some a, refresh_token := some r,
                 expires_at := some (now + b.expires_in.getD 3600) },
       [.password]) ∧
    _get_valid_token
      { st with access_token := some a, refresh_token := some r,
                expires_at := some (now + b.expires_in.getD 3600) } net2 k2 now2 =
      (.ok (some a),
       { st with access_token := some a, refresh_token := some r,
                 expires_at := some (now + b.expires_in.getD 3600) },
       []) := by
  constructor
  · simp [_get_valid_token, h0, truthyS, authenticate_ok st net k now b a r hresp ha hr]
  · have hnotle : ¬ (now + b.expires_in.getD 3600 ≤ now2) := by omega
    simp [_get_valid_token, truthyS, truthyI, hne, hnotle]

/-- C2 witness: a concrete run of the two calls. -/
theorem two_calls_single_auth_witness :
    _get_valid_token
      { access_token := none, refresh_token := none, expires_at := none,
        url := some "u", api_key := some "key", auth_email := some "e",
        auth_password := some "p", environment := some "dev" }
      ⟨fun _ => .ok ⟨some "tok", some "ref", some 100⟩⟩ 0 1000 =
      (.ok (some "tok"),
       { access_token := some "tok", refresh_token := some "ref",
         expires_at := some 1100,
         url := some "u", api_key := some "key", auth_email := some "e",
         auth_password := some "p", environment := some "dev" },
       [.password]) := by
  have h := two_calls_single_auth
    { access_token := none, refresh_token := none, expires_at := none,
      url := some "u", api_key := some "key", auth_email := some "e",
      auth_password := some "p", environment := some "dev" }
    ⟨fun _ => .ok ⟨some "tok", some "ref", some 100⟩⟩
    ⟨fun _ => .fail "unused"⟩ 0 0 1000 1050 "tok" "ref"
    ⟨some "tok", some "ref", some 100⟩
    rfl rfl rfl (by decide) rfl (by decide)
  exact h.1

/-- C5.  With a (nonempty) cached token, a set (nonzero) `expires_at` that
has passed, and a (nonempty) cached refresh token, the first network call
`_get_valid_token` issues is the refresh-token-grant request, not the
password-grant one — for every oracle, i.e. whatever the backend then
answers. -/
theorem expired_with_refresh_calls_refresh_first
    (st : SupabaseClient) (net : Net) (k : Nat) (now : Int)
    (t rt : String) (ea : Int)
    (htok : st.access_token = some t) (ht : t ≠ "")
    (hea : st.expires_at = some ea) (hea0 : ea ≠ 0) (hexp : ea ≤ now)
    (hrt : st.refresh_token = some rt) (hr : rt ≠ "") :
    (_get_valid_token st net k now).2.2.head? = some .refreshGrant := by
  rcases hre : _refresh_token st net k now with ⟨res, st1, cs⟩
  have hcs := refresh_trace st net k now
  rw [hre] at hcs
  simp only at hcs
  subst hcs
  unfold _get_valid_token
  simp [truthyS, truthyI, htok, ht, hea, hea0, hexp, hrt, hr, hre]
  rcases res with e | u
  · rcases ha : _authenticate st1 net (k + 1) now with ⟨res2, st2, cs2⟩
    rcases res2 with e2 | u2 <;> simp [ha]
  · simp

/-- C5 witness: a concrete expired state whose first call is the refresh
request. -/
theorem expired_with_refresh_calls_refresh_first_witness :
    (_get_valid_token
      { access_token := some "old", refresh_token := some "ref",
        expires_at := some 500, url := some "u", api_key := some "key",
        auth_email := some "e", auth_password := some "p", environment := none }
      ⟨fun _ => .fail "boom"⟩ 0 1000).2.2.head? = some .refreshGrant :=
  expired_with_refresh_calls_refresh_first _ ⟨fun _ => .fail "boom"⟩ 0 1000
    "old" "ref" 500 rfl (by decide) rfl (by decide) (by decide) rfl (by decide)

/-- C8.  With a (nonempty) cached token, a set (nonzero) `expires_at`
that has passed, and no cached refresh token, `_get_valid_token` performs
exactly one full password-grant authentication, caches all three
credential fields from its response, and returns the new access token. -/
theorem expired_no_refresh_full_auth
    (st : SupabaseClient) (net : Net) (k : Nat) (now : Int)
    (t a2 r2 : String) (ea : Int) (b : AuthBody)
    (htok : st.access_token = some t) (ht : t ≠ "")
    (hea : st.expires_at = some ea) (hea0 : ea ≠ 0) (hexp : ea ≤ now)
    (hrt : st.refresh_token = none)
    (hresp : net.resp k = .ok b)
    (ha : b.access_token = some a2) (hr : b.refresh_token = some r2) :
    _get_valid_token st net k now =
      (.ok (some a2),
       { st with access_token := some a2, refresh_token := some r2,
                 expires_at := some (now + b.expires_in.getD 3600) },
       [.password]) := by
  unfold _get_valid_token
  simp [truthyS, truthyI, htok, ht, hea, hea0, hexp, hrt,
        authenticate_ok st net k now b a2 r2 hresp ha hr]

/-- C8 witness: a concrete expired state with no refresh token. -/
theorem expired_no_refresh_full_auth_witness :
    _get_valid_token
      { access_token := some "old", refresh_token := none,
        expires_at := some 500, url := some "u", api_key := some "key",
        auth_email := some "e", auth_password := some "p", environment := none }
      ⟨fun _ => .ok ⟨some "new", some "ref2", none⟩⟩ 0 1000 =
      (.ok (some "new"),
       { access_token := some "new", refresh_token := some "ref2",
         expires_at := some 4600, url := some "u", api_key := some "key",
         auth_email := some "e", auth_password := some "p", environment := none },
       [.password]) :=
  expired_no_refresh_full_auth _ ⟨fun _ => .ok ⟨some "new", some "ref2", none⟩⟩
    0 1000 "old" "new" "ref2" 500 ⟨some "new", some "ref2", none⟩
    rfl (by decide) rfl (by decide) (by decide) rfl rfl rfl rfl

/-- A token-endpoint response on which `_authenticate` / `_refresh_token`
raises: a non-success HTTP status, or a success body missing
`access_token` or `refresh_token` (KeyError). -/
def authRespFails : NetResp → Bool
  | .fail _ => true
  | .ok b => b.access_token.isNone || b.refresh_token.isNone

theorem refresh_fail_shape (st : SupabaseClient) (net : Net) (k : Nat) (now : Int)
    (hfail : authRespFails (net.resp k) = true) :
    ∃ e st1, _refresh_token st net k now = (.error e, st1, [.refreshGrant]) ∧
      (st1 = st ∨ ∃ x, st1 = { st with access_token := some x }) := by
  rcases hnr : net.resp k with ⟨ba, br, be⟩ | body
  · rw [hnr] at hfail
    rcases ba with _ | tok
    · exact ⟨"KeyError: access_token", st, by simp [_refresh_token, hnr], Or.inl rfl⟩
    · rcases br with _ | rtok
      · exact ⟨"KeyError: refresh_token", { st with access_token := some tok },
          by simp [_refresh_token, hnr], Or.inr ⟨tok, rfl⟩⟩
      · simp [authRespFails] at hfail
  · exact ⟨body, st, by simp [_refresh_token, hnr], Or.inl rfl⟩

/-- C4.  With a (nonempty) cached token, a set (nonzero) `expires_at`
that has passed and a (nonempty) cached refresh token: when the refresh
call fails in any way, `_get_valid_token` does not propagate the failure;
it falls back to full password authentication, caches its result, and
returns the new access token without raising (the authentication call
succeeding). -/
theorem refresh_failure_falls_back
    (st : SupabaseClient) (net : Net) (k : Nat) (now : Int)
    (t rt a2 r2 : String) (ea : Int) (b : AuthBody)
    (htok : st.access_token = some t) (ht : t ≠ "")
    (hea : st.expires_at = some ea) (hea0 : ea ≠ 0) (hexp : ea ≤ now)
    (hrt : st.refresh_token = some rt) (hr : rt ≠ "")
    (hfail : authRespFails (net.resp k) = true)
    (hresp2 : net.resp (k + 1) = .ok b)
    (ha2 : b.access_token = some a2) (hr2 : b.refresh_token = some r2) :
    _get_valid_token st net k now =
      (.ok (some a2),
       { st with access_token := some a2, refresh_token := some r2,
                 expires_at := some (now + b.expires_in.getD 3600) },
       [.refreshGrant, .password]) := by
  obtain ⟨e, st1, hre, hshape⟩ := refresh_fail_shape st net k now hfail
  unfold _get_valid_token
  simp [truthyS, truthyI, htok, ht, hea, hea0, hexp, hrt, hr, hre]
  rcases hshape with h1 | ⟨x, h1⟩
  · rw [h1]
    simp [authenticate_ok st net (k + 1) now b a2 r2 hresp2 ha2 hr2]
  · rw [h1]
    simp [authenticate_ok { st with access_token := some x } net (k + 1) now
            b a2 r2 hresp2 ha2 hr2]

/-- C4 witness: refresh fails with a 400, the password grant then
succeeds. -/
theorem refresh_failure_falls_back_witness :
    _get_valid_token
      { access_token := some "old", refresh_token := some "ref",
        expires_at := some 500, url := some "u", api_key := some "key",
        auth_email := some "e", auth_password := some "p", environment := none }
      ⟨fun n => if n == 0 then .fail "400 refresh rejected"
                else .ok ⟨some "new", some "ref2", some 60⟩⟩ 0 1000 =
      (.ok (some "new"),
       { access_token := some "new", refresh_token := some "ref2",
         expires_at := some 1060, url := some "u", api_key := some "key",
         auth_email := some "e", auth_password := some "p", environment := none },
       [.refreshGrant, .password]) :=
  refresh_failure_falls_back _
    ⟨fun n => if n == 0 then .fail "400 refresh rejected"
              else .ok ⟨some "new", some "ref2", some 60⟩⟩ 0 1000
    "old" "ref" "new" "ref2" 500 ⟨some "new", some "ref2", some 60⟩
    rfl (by decide) rfl (by decide) (by decide) rfl (by decide)
    rfl rfl rfl rfl

/-- C3 counterexample.  An HTTP-success authentication response whose
body contains `access_token` but lacks `refresh_token`: `_authenticate`
raises (KeyError), yet the credential state has already been partially
updated — `access_token` was assigned before the missing key was read —
refuting "on any failure ... the credential state is left unchanged (no
partial update)". -/
theorem authenticate_partial_update_on_failure :
    (_authenticate
      { access_token := none, refresh_token := none, expires_at := none,
        url := some "u", api_key := some "key", auth_email := some "e",
        auth_password := some "p", environment := none }
      ⟨fun _ => .ok ⟨some "tok", none, none⟩⟩ 0 0).1 =
        .error "KeyError: refresh_token" ∧
    (_authenticate
      { access_token := none, refresh_token := none, expires_at := none,
        url := some "u", api_key := some "key", auth_email := some "e",
        auth_password := some "p", environment := none }
      ⟨fun _ => .ok ⟨some "tok", none, none⟩⟩ 0 0).2.1.access_token = some "tok" :=
  ⟨rfl, rfl⟩

/-- C3 (amended).  Contract of `_authenticate` and `_refresh_token`: on a
non-success HTTP status the failure is raised carrying the response body
and the credential state is left unchanged, likewise when the success
body lacks `access_token`; when the success body has `access_token` but
lacks `refresh_token` the failure is raised with `access_token` already
updated (the partial update of the counterexample); on a success body
with both tokens, all three fields are cached, with
`expires_at = now + expires_in` and `expires_in` defaulting to 3600 when
absent. -/
theorem authenticate_refresh_contract
    (st : SupabaseClient) (net : Net) (k : Nat) (now : Int) :
    (∀ body, net.resp k = .fail body →
      _authenticate st net k now = (.error body, st, [.password]) ∧
      _refresh_token st net k now = (.error body, st, [.refreshGrant])) ∧
    (∀ b, net.resp k = .ok b → b.access_token = none →
      _authenticate st net k now = (.error "KeyError: access_token", st, [.password]) ∧
      _refresh_token st net k now = (.error "KeyError: access_token", st, [.refreshGrant])) ∧
    (∀ b a, net.resp k = .ok b → b.access_token = some a → b.refresh_token = none →
      _authenticate st net k now =
        (.error "KeyError: refresh_token", { st with access_token := some a },
         [.password]) ∧
      _refresh_token st net k now =
        (.error "KeyError: refresh_token", { st with access_token := some a },
         [.refreshGrant])) ∧
    (∀ b a r, net.resp k = .ok b → b.access_token = some a → b.refresh_token = some r →
      _authenticate st net k now =
        (.ok (), { st with access_token := some a, refresh_token := some r,
                           expires_at := some (now + b.expires_in.getD 3600) },
         [.password]) ∧
      _refresh_token st net k now =
        (.ok (), { st with access_token := some a, refresh_token := some r,
                           expires_at := some (now + b.expires_in.getD 3600) },
         [.refreshGrant])) := by
  refine
    ⟨fun body h => ⟨by simp [_authenticate, h], by simp [_refresh_token, h]⟩,
     fun b h ha => ⟨by simp [_authenticate, h, ha], by simp [_refresh_token, h, ha]⟩,
     fun b a h ha hr =>
       ⟨by simp [_authenticate, h, ha, hr], by simp [_refresh_token, h, ha, hr]⟩,
     fun b a r h ha hr =>
       ⟨by simp [_authenticate, h, ha, hr], by simp [_refresh_token, h, ha, hr]⟩⟩

/-- C3 witness: the success side of the amended contract (including the
3600 default) and the unchanged-state side, at concrete inputs. -/
theorem authenticate_refresh_contract_witness :
    _authenticate
      { access_token := none, refresh_token := none, expires_at := none,
        url := some "u", api_key := some "key", auth_email := some "e",
        auth_password := some "p", environment := none }
      ⟨fun _ => .ok ⟨some "a", some "r", none⟩⟩ 0 100 =
      (.ok (),
       { access_token := some "a", refresh_token := some "r",
         expires_at := some 3700, url := some "u", api_key := some "key",
         auth_email := some "e", auth_password := some "p", environment := none },
       [.password]) :=
  ((authenticate_refresh_contract
      { access_token := none, refresh_token := none, expires_at := none,
        url := some "u", api_key := some "key", auth_email := some "e",
        auth_password := some "p", environment := none }
      ⟨fun _ => .ok ⟨some "a", some "r", none⟩⟩ 0 100).2.2.2
    ⟨some "a", some "r", none⟩ "a" "r" rfl rfl rfl).1

theorem pyOrStr_idem (a b : Option String) : pyOrStr (pyOrStr a b) b = pyOrStr a b := by
  unfold pyOrStr
  by_cases h : truthyS a = true
  · simp [h]
  · simp [h]

/-- C6.  When the logger is constructed (first construction) with any of
url / api key / auth email / auth password absent — the parameter falsy
and the corresponding environment variable falsy too — every
`log_success` call performs zero network calls and returns normally with
the instance unchanged: a silent no-op, not an error. -/
theorem unconfigured_logger_log_success_noop
    (url api_key auth_email auth_password environment : Option String)
    (env : OSEnv) (args : LogInputs) (created_now : ℚ)
    (net : Net) (k : Nat) (now1 now2 : Int)
    (h : truthyS (pyOrStr url env.SUPABASE_URL) = false ∨
         truthyS (pyOrStr api_key env.SUPABASE_API_KEY) = false ∨
         truthyS (pyOrStr auth_email env.SUPABASE_AUTH_EMAIL) = false ∨
         truthyS (pyOrStr auth_password env.SUPABASE_AUTH_PASSWORD) = false) :
    log_success
      (constructLogger none url api_key auth_email auth_password environment env).1
      args created_now net k now1 now2 =
      (.ok (),
       (constructLogger none url api_key auth_email auth_password environment env).1,
       []) := by
  by_cases hu : truthyS (pyOrStr url env.SUPABASE_URL) = true
  · rcases h with h | h | h | h
    · simp [h] at hu
    · simp [log_success, constructLogger, loggerInit, blankLogger, clientInit,
            pyOrStr_idem, hu, h]
    · simp [log_success, constructLogger, loggerInit, blankLogger, clientInit,
            pyOrStr_idem, hu, h]
    · simp [log_success, constructLogger, loggerInit, blankLogger, clientInit,
            pyOrStr_idem, hu, h]
  · have hu' : truthyS (pyOrStr url env.SUPABASE_URL) = false := by
      simpa using hu
    simp [log_success, constructLogger, loggerInit, blankLogger, clientInit,
          pyOrStr_idem, hu']

/-- C6 witness: nothing configured at all — no parameters, empty
environment. -/
theorem unconfigured_logger_log_success_noop_witness :
    log_success
      (constructLogger none none none none none none ⟨none, none, none, none, none⟩).1
      ⟨"u1", "c1", "t1", "m", "r", 0, 1, "b", "bn", "sp", none, none, none⟩
      5 ⟨fun _ => .fail "unreachable"⟩ 0 100 200 =
      (.ok (),
       (constructLogger none none none none none none ⟨none, none, none, none, none⟩).1,
       []) :=
  unconfigured_logger_log_success_noop none none none none none
    ⟨none, none, none, none, none⟩
    ⟨"u1", "c1", "t1", "m", "r", 0, 1, "b", "bn", "sp", none, none, none⟩
    5 ⟨fun _ => .fail "unreachable"⟩ 0 100 200 (Or.inl rfl)

/-- C7.  The log record is assembled by the pure function `mk_log_entry`,
hence is a deterministic function of its inputs.  Its `duration` field is
`response_time - request_time` in fractional seconds (so 1.5 when
`response_time = request_time + 1.5s`); `input_attachments` and
`output_attachments` are the empty structure when the argument is absent,
never absent/null (the `LogEntry` field is total); `chat_history_length`
is 0 when absent. -/
theorem log_entry_fields (environment : Option String) (created_now : ℚ)
    (args : LogInputs) :
    (mk_log_entry environment created_now args).duration
        = args.response_time - args.request_time ∧
    (args.response_time = args.request_time + 3/2 →
      (mk_log_entry environment created_now args).duration = 3/2) ∧
    (args.input_attachments = none →
      (mk_log_entry environment created_now args).input_attachments = []) ∧
    (args.output_attachments = none →
      (mk_log_entry environment created_now args).output_attachments = []) ∧
    (args.chat_history_length = none →
      (mk_log_entry environment created_now args).chat_history_length = 0) := by
  refine ⟨rfl, fun h => ?_, fun h => ?_, fun h => ?_, fun h => ?_⟩
  · simp [mk_log_entry, h]
  · simp [mk_log_entry, pyOrDict, h]
  · simp [mk_log_entry, pyOrDict, h]
  · simp [mk_log_entry, pyOrInt, h]

/-- C7 witness: `response_time = request_time + 1.5s` and all optional
arguments absent, at concrete inputs. -/
theorem log_entry_fields_witness :
    (mk_log_entry (some "dev") 0
        ⟨"u1", "c1", "t1", "m", "r", 10, 10 + 3/2, "b", "bn", "sp",
         none, none, none⟩).duration = 3/2 ∧
    (mk_log_entry (some "dev") 0
        ⟨"u1", "c1", "t1", "m", "r", 10, 10 + 3/2, "b", "bn", "sp",
         none, none, none⟩).input_attachments = [] ∧
    (mk_log_entry (some "dev") 0
        ⟨"u1", "c1", "t1", "m", "r", 10, 10 + 3/2, "b", "bn", "sp",
         none, none, none⟩).output_attachments = [] ∧
    (mk_log_entry (some "dev") 0
        ⟨"u1", "c1", "t1", "m", "r", 10, 10 + 3/2, "b", "bn", "sp",
         none, none, none⟩).chat_history_length = 0 := by
  have h := log_entry_fields (some "dev") 0
    ⟨"u1", "c1", "t1", "m", "r", 10, 10 + 3/2, "b", "bn", "sp", none, none, none⟩
  exact ⟨h.2.1 rfl, h.2.2.1 rfl, h.2.2.2.1 rfl, h.2.2.2.2 rfl⟩

/-- C9 (implicit claim).  The singleton pattern: the first construction
leaves the class-level `_instance` holding the very object returned, with
`_initialized` set; and every later constructor call on an initialized
instance returns that same instance with every field unchanged —
whatever arguments and environment the later call is given — and leaves
the class-level `_instance` unchanged. -/
theorem singleton_reinit_unchanged
    (l : SupabaseLogger)
    (u1 a1 e1 p1 v1 u2 a2 e2 p2 v2 : Option String) (env1 env2 : OSEnv) :
    (constructLogger none u1 a1 e1 p1 v1 env1).1._initialized = true ∧
    (constructLogger none u1 a1 e1 p1 v1 env1).2
        = some (constructLogger none u1 a1 e1 p1 v1 env1).1 ∧
    (l._initialized = true →
      constructLogger (some l) u2 a2 e2 p2 v2 env2 = (l, some l)) := by
  refine ⟨?_, rfl, fun h => ?_⟩
  · simp [constructLogger, loggerInit, blankLogger]
  · simp [constructLogger, loggerInit, h]

/-- C9 witness: a configured first construction, then a second
construction with entirely different arguments returning the same
instance unchanged. -/
theorem singleton_reinit_unchanged_witness :
    constructLogger
      (some (constructLogger none (some "u") (some "k") (some "e") (some "p")
               (some "dev") ⟨none, none, none, none, none⟩).1)
      (some "u2") (some "k2") (some "e2") (some "p2") (some "prod")
      ⟨some "x", some "y", some "z", some "w", some "v"⟩ =
      ((constructLogger none (some "u") (some "k") (some "e") (some "p")
          (some "dev") ⟨none, none, none, none, none⟩).1,
       some (constructLogger none (some "u") (some "k") (some "e") (some "p")
          (some "dev") ⟨none, none, none, none, none⟩).1) :=
  (singleton_reinit_unchanged
    (constructLogger none (some "u") (some "k") (some "e") (some "p")
       (some "dev") ⟨none, none, none, none, none⟩).1
    (some "u") (some "k") (some "e") (some "p") (some "dev")
    (some "u2") (some "k2") (some "e2") (some "p2") (some "prod")
    ⟨none, none, none, none, none⟩
    ⟨some "x", some "y", some "z", some "w", some "v"⟩).2.2 rfl

theorem insert_log_no_token_shape (st : SupabaseClient) (net : Net) (k : Nat)
    (now : Int) (h : st.access_token = none) :
    (_insert_log st net k now).2.2 = [.password] ∨
    (_insert_log st net k now).2.2 = [.password, .insert] := by
  rcases ha : _authenticate st net k now with ⟨res, st1, cs⟩
  have hcs := authenticate_trace st net k now
  rw [ha] at hcs
  simp only at hcs
  subst hcs
  unfold _insert_log _get_valid_token
  rcases res with e | u
  · left; simp [h, truthyS, ha]
  · rcases hnr : net.resp (k + 1) with b | body
    · right; simp [h, truthyS, ha, hnr]
    · right; simp [h, truthyS, ha, hnr]

/-- C1.  `log_success` never raises to the caller: its result is `.ok ()`
for every state and every oracle.  Moreover, when a configured and
enabled logger fails its first `_insert_log` attempt for any reason, the
cached `access_token` is cleared and `_insert_log` is attempted exactly
once more on the cleared state (the displayed equation); because the
token was cleared, that retry performs exactly one additional
authentication network call, and at most one additional insert call
(exactly one when the authentication of the retry succeeded — when it fails,
or when the second insert fails, the failure is only logged and the
function still returns `.ok ()`). -/
theorem log_success_never_raises_single_retry
    (self : SupabaseLogger) (args : LogInputs) (created_now : ℚ)
    (net : Net) (k : Nat) (now1 now2 : Int) :
    (log_success self args created_now net k now1 now2).1 = .ok () ∧
    (∀ e st1 cs1, truthyS self.url = true → self.enabled = true →
      _insert_log self.toSupabaseClient net k now1 = (.error e, st1, cs1) →
      log_success self args created_now net k now1 now2 =
        (.ok (),
         { self with toSupabaseClient :=
             (_insert_log { st1 with access_token := none } net (k + cs1.length)
               now2).2.1 },
         cs1 ++ (_insert_log { st1 with access_token := none } net (k + cs1.length)
                   now2).2.2) ∧
      ((_insert_log { st1 with access_token := none } net (k + cs1.length)
          now2).2.2 = [.password] ∨
       (_insert_log { st1 with access_token := none } net (k + cs1.length)
          now2).2.2 = [.password, .insert])) := by
  constructor
  · unfold log_success
    by_cases h1 : truthyS self.url = true
    · by_cases h2 : self.enabled = true
      · rcases hi : _insert_log self.toSupabaseClient net k now1 with ⟨r1, st1, cs1⟩
        rcases r1 with e | u
        · rcases hi2 : _insert_log { st1 with access_token := none } net
              (k + cs1.length) now2 with ⟨r2, st3, cs2⟩
          simp [h1, h2, hi, hi2]
        · simp [h1, h2, hi]
      · simp [h1, h2]
    · simp [h1]
  · intro e st1 cs1 hurl hen hi
    refine ⟨?_, ?_⟩
    · rcases hi2 : _insert_log { st1 with access_token := none } net
          (k + cs1.length) now2 with ⟨r2, st3, cs2⟩
      simp [log_success, hurl, hen, hi, hi2]
    · exact insert_log_no_token_shape _ net (k + cs1.length) now2 rfl

/-- C1 witness: first insert rejected with a 401, the retry
re-authenticates once and inserts once, and the call returns normally. -/
theorem log_success_never_raises_single_retry_witness :
    log_success
      { access_token := none, refresh_token := none, expires_at := none,
        url := some "u", api_key := some "key", auth_email := some "e",
        auth_password := some "p", environment := none,
        user_id := none, channel_id := none, thread_id := none,
        bot_id := none, bot_name := none, enabled := true, _initialized := true }
      ⟨"u1", "c1", "t1", "m", "r", 0, 1, "b", "bn", "sp", none, none, none⟩ 5
      ⟨fun n => if n == 0 then .ok ⟨some "t1", some "r1", some 50⟩
                else if n == 1 then .fail "401"
                else .ok ⟨some "t2", some "r2", some 60⟩⟩ 0 100 200 =
      (.ok (),
       { access_token := some "t2", refresh_token := some "r2",
         expires_at := some 260, url := some "u", api_key := some "key",
         auth_email := some "e", auth_password := some "p", environment := none,
         user_id := none, channel_id := none, thread_id := none,
         bot_id := none, bot_name := none, enabled := true, _initialized := true },
       [.password, .insert, .password, .insert]) :=
  ((log_success_never_raises_single_retry
      { access_token := none, refresh_token := none, expires_at := none,
        url := some "u", api_key := some "key", auth_email := some "e",
        auth_password := some "p", environment := none,
        user_id := none, channel_id := none, thread_id := none,
        bot_id := none, bot_name := none, enabled := true, _initialized := true }
      ⟨"u1", "c1", "t1", "m", "r", 0, 1, "b", "bn", "sp", none, none, none⟩ 5
      ⟨fun n => if n == 0 then .ok ⟨some "t1", some "r1", some 50⟩
                else if n == 1 then .fail "401"
                else .ok ⟨some "t2", some "r2", some 60⟩⟩ 0 100 200).2
    "401"
    { access_token := some "t1", refresh_token := some "r1",
      expires_at := some 150, url := some "u", api_key := some "key",
      auth_email := some "e", auth_password := some "p", environment := none }
    [.password, .insert] rfl rfl rfl).1

/-- C10 (implicit claim).  The retry path of `log_success` clears only
`access_token`: the state handed to the second `_insert_log` attempt
keeps `refresh_token` and `expires_at` exactly as the first attempt left
them; consequently the credential fetch of the retry performs exactly one full
password-grant authentication call and never issues a refresh-grant call
(never uses the still-cached refresh token), for every state in which the
first attempt failed. -/
theorem retry_clears_only_access_token
    (self : SupabaseLogger) (args : LogInputs) (created_now : ℚ)
    (net : Net) (k : Nat) (now1 now2 : Int) (e : String)
    (st1 : SupabaseClient) (cs1 : List NetReq)
    (hurl : truthyS self.url = true) (hen : self.enabled = true)
    (hfail : _insert_log self.toSupabaseClient net k now1 = (.error e, st1, cs1)) :
    ({ st1 with access_token := none } : SupabaseClient).refresh_token
        = st1.refresh_token ∧
    ({ st1 with access_token := none } : SupabaseClient).expires_at
        = st1.expires_at ∧
    log_success self args created_now net k now1 now2 =
      (.ok (),
       { self with toSupabaseClient :=
           (_insert_log { st1 with access_token := none } net (k + cs1.length)
             now2).2.1 },
       cs1 ++ (_insert_log { st1 with access_token := none } net (k + cs1.length)
                 now2).2.2) ∧
    (_insert_log { st1 with access_token := none } net (k + cs1.length)
        now2).2.2.countP (fun q => q == NetReq.refreshGrant) = 0 ∧
    (_insert_log { st1 with access_token := none } net (k + cs1.length)
        now2).2.2.countP (fun q => q == NetReq.password) = 1 := by
  refine ⟨rfl, rfl, ?_, ?_, ?_⟩
  · rcases hi2 : _insert_log { st1 with access_token := none } net
        (k + cs1.length) now2 with ⟨r2, st3, cs2⟩
    simp [log_success, hurl, hen, hfail, hi2]
  · rcases insert_log_no_token_shape { st1 with access_token := none } net
        (k + cs1.length) now2 rfl with hs | hs <;> rw [hs] <;> rfl
  · rcases insert_log_no_token_shape { st1 with access_token := none } net
        (k + cs1.length) now2 rfl with hs | hs <;> rw [hs] <;> rfl

/-- C10 witness: first insert rejected; the retry state keeps the cached
refresh token and expiry, and the retry issues password then insert, no
refresh-grant call. -/
theorem retry_clears_only_access_token_witness :
    (_insert_log
        { access_token := none, refresh_token := some "r1",
          expires_at := some 150, url := some "u", api_key := some "key",
          auth_email := some "e", auth_password := some "p", environment := none }
        ⟨fun n => if n == 0 then .ok ⟨some "t1", some "r1", some 50⟩
                  else if n == 1 then .fail "401"
                  else .ok ⟨some "t2", some "r2", some 60⟩⟩ 2 200).2.2.countP
      (fun q => q == NetReq.refreshGrant) = 0 :=
  (retry_clears_only_access_token
    { access_token := none, refresh_token := none, expires_at := none,
      url := some "u", api_key := some "key", auth_email := some "e",
      auth_password := some "p", environment := none,
      user_id := none, channel_id := none, thread_id := none,
      bot_id := none, bot_name := none, enabled := true, _initialized := true }
    ⟨"u1", "c1", "t1", "m", "r", 0, 1, "b", "bn", "sp", none, none, none⟩ 5
    ⟨fun n => if n == 0 then .ok ⟨some "t1", some "r1", some 50⟩
              else if n == 1 then .fail "401"
              else .ok ⟨some "t2", some "r2", some 60⟩⟩ 0 100 200
    "401"
    { access_token := some "t1", refresh_token := some "r1",
      expires_at := some 150, url := some "u", api_key := some "key",
      auth_email := some "e", auth_password := some "p", environment := none }
    [.password, .insert] rfl rfl rfl).2.2.2.1
